import Mathlib

/-!
Verification of the OpenSend message-processing core.

This file gives a shallow embedding of the parts of the repository that the
spec claims are about: the store schema rows and the SQL claim functions
(schema file, functions claim_next_message and claim_next_webhook_delivery),
the store client operations (packages/shared/src/db/client.ts), the SMTP
error classifier (packages/worker/src/smtp/client.ts), the email processor
(packages/worker/src/processors/email.processor.ts), the webhook dispatcher
(webhook.processor in the same package) and its HMAC-SHA256 payload signing.

Database tables are embedded as lists of row structures; the SQL claim
functions become pure functions from table state to (table state, claimed
row); the asynchronous TypeScript processors become pure functions taking
the outcome of their external effects (the SMTP send result, the webhook
POST result) as an argument and returning the database writes and webhook
emissions they perform.  Timestamps (NOW(), Date.now()) are threaded as
explicit natural-number parameters.
-/

namespace OpenSend

/-- Status column of the messages table (schema CHECK constraint). -/
inductive MessageStatus where
  | queued
  | processing
  | sent
  | delivered
  | bounced
  | failed
  | rejected
deriving DecidableEq, Repr

/-- Status column of the webhook_deliveries table (schema CHECK constraint). -/
inductive WebhookDeliveryStatus where
  | pending
  | delivered
  | failed
deriving DecidableEq, Repr

/-- Reason column of the suppressions table (schema CHECK constraint). -/
inductive SuppressionReason where
  | hard_bounce
  | soft_bounce
  | complaint
  | unsubscribe
  | manual
deriving DecidableEq, Repr

/-- The string stored in the reason column, as interpolated into the
"Recipient suppressed: <reason>" failure reason by the email processor. -/
def SuppressionReason.str : SuppressionReason → String
  | .hard_bounce => "hard_bounce"
  | .soft_bounce => "soft_bounce"
  | .complaint => "complaint"
  | .unsubscribe => "unsubscribe"
  | .manual => "manual"

/-- One row of the messages table, with the columns the worker reads or
writes.  Ids and timestamps are embedded as naturals. -/
structure MessageRow where
  id : Nat
  apiKeyId : Nat
  fromAddress : String
  toAddress : String
  subject : Option String
  body : Option String
  htmlBody : Option String
  attempts : Nat
  status : MessageStatus
  createdAt : Nat
  failureReason : Option String
deriving DecidableEq, Repr

/-- One row of the suppressions table. -/
structure SuppressionRow where
  id : Nat
  apiKeyId : Nat
  email : String
  reason : SuppressionReason
deriving DecidableEq, Repr

/-- One row of the webhooks table. -/
structure WebhookRow where
  id : Nat
  apiKeyId : Nat
  url : String
  events : List String
  secret : String
  active : Bool
deriving DecidableEq, Repr

/-- Event-specific payload fields spread into the webhook payload by
triggerWebhookEvent (the additionalPayload argument). -/
structure PayloadExtras where
  smtpMessageId : Option String := none
  bounceType : Option String := none
  bounceCode : Option Nat := none
  bounceMessage : Option String := none
  failureReason : Option String := none
deriving DecidableEq, Repr

/-- The JSON payload written into webhook_deliveries.payload: the event name,
the emission timestamp, the message id, and the event-specific fields. -/
structure WebhookPayload where
  event : String
  timestamp : Nat
  messageId : Nat
  extras : PayloadExtras
deriving DecidableEq, Repr

/-- One row of the webhook_deliveries table. -/
structure WebhookDeliveryRow where
  id : Nat
  webhookId : Nat
  messageId : Option Nat
  event : String
  payload : WebhookPayload
  status : WebhookDeliveryStatus
  attempts : Nat
  lastAttemptAt : Option Nat
  createdAt : Nat
deriving DecidableEq, Repr

/-- Database errors surfaced by the store client (client.ts DbError). -/
inductive DbErr where
  | duplicate (entity field : String)
  | constraint (msg : String)
  | connection (msg : String)
  | other (msg : String)
deriving DecidableEq, Repr

/-! ## Row selection for the SQL claim functions

Both claim functions run
UPDATE t SET ... WHERE id = (SELECT id FROM t WHERE test ORDER BY created_at
ASC LIMIT 1 FOR UPDATE SKIP LOCKED) RETURNING *.
The subselect returns a row passing the WHERE test with minimal created_at;
ties are broken arbitrarily by the database, realized here as first in list
order.  FOR UPDATE SKIP LOCKED makes the whole statement one atomic step, so
the embedding treats each claim as an atomic function on the table state,
and concurrent claimants as an arbitrary serialization of such steps. -/

/-- Minimal-key row among those passing the test, earliest in list order on
ties; none when no row passes. -/
def selectBy {α : Type} (test : α → Bool) (key : α → Nat) : List α → Option α
  | [] => none
  | r :: rs =>
    if test r then
      match selectBy test key rs with
      | none => some r
      | some r2 => if key r2 < key r then some r2 else some r
    else
      selectBy test key rs

theorem selectBy_mem {α : Type} (test : α → Bool) (key : α → Nat) :
    ∀ (l : List α) (r : α), selectBy test key l = some r → r ∈ l ∧ test r = true := by
  intro l
  induction l with
  | nil => intro r h; simp [selectBy] at h
  | cons x xs ih =>
    intro r h
    simp only [selectBy] at h
    by_cases hx : test x
    · simp only [hx, if_true] at h
      cases hsel : selectBy test key xs with
      | none =>
        rw [hsel] at h
        cases h
        exact ⟨List.mem_cons_self x xs, hx⟩
      | some r2 =>
        rw [hsel] at h
        by_cases hk : key r2 < key x
        · simp only [hk, if_true] at h
          cases h
          rcases ih _ hsel with ⟨hm, ht⟩
          exact ⟨List.mem_cons_of_mem x hm, ht⟩
        · simp only [hk, if_false] at h
          cases h
          exact ⟨List.mem_cons_self x xs, hx⟩
    · simp only [hx, if_false] at h
      rcases ih r h with ⟨hm, ht⟩
      exact ⟨List.mem_cons_of_mem x hm, ht⟩

theorem selectBy_none {α : Type} (test : α → Bool) (key : α → Nat) :
    ∀ (l : List α), selectBy test key l = none ↔ ∀ x ∈ l, test x = false := by
  intro l
  induction l with
  | nil => simp [selectBy]
  | cons y ys ih =>
    constructor
    · intro h x hx
      simp only [selectBy] at h
      by_cases hy : test y
      · simp only [hy, if_true] at h
        cases hsel : selectBy test key ys with
        | none => rw [hsel] at h; cases h
        | some r2 => rw [hsel] at h; by_cases hk : key r2 < key y <;> simp [hk] at h
      · simp only [hy, if_false] at h
        rcases List.mem_cons.mp hx with hxy | hxs
        · subst hxy; simpa using hy
        · exact (ih.mp h) x hxs
    · intro h
      simp only [selectBy]
      have hy : test y = false := h y (List.mem_cons_self y ys)
      simp only [hy, Bool.false_eq_true, if_false]
      exact ih.mpr (fun x hx => h x (List.mem_cons_of_mem y hx))

theorem selectBy_min {α : Type} (test : α → Bool) (key : α → Nat) :
    ∀ (l : List α) (r : α), selectBy test key l = some r →
      ∀ x ∈ l, test x = true → key r ≤ key x := by
  intro l
  induction l with
  | nil => intro r h; simp [selectBy] at h
  | cons y ys ih =>
    intro r h x hx htx
    simp only [selectBy] at h
    by_cases hy : test y
    · simp only [hy, if_true] at h
      cases hsel : selectBy test key ys with
      | none =>
        rw [hsel] at h
        cases h
        rcases List.mem_cons.mp hx with hxy | hxs
        · subst hxy; exact le_refl _
        · exact absurd htx (by simp [((selectBy_none test key ys).mp hsel) x hxs])
      | some r2 =>
        rw [hsel] at h
        by_cases hk : key r2 < key y
        · simp only [hk, if_true] at h
          cases h
          rcases List.mem_cons.mp hx with hxy | hxs
          · subst hxy; exact le_of_lt hk
          · exact ih _ hsel x hxs htx
        · simp only [hk, if_false] at h
          cases h
          rcases List.mem_cons.mp hx with hxy | hxs
          · subst hxy; exact le_refl _
          · exact le_trans (Nat.le_of_not_lt hk) (ih r2 hsel x hxs htx)
    · simp only [hy, if_false] at h
      rcases List.mem_cons.mp hx with hxy | hxs
      · subst hxy; exact absurd htx (by simp [hy])
      · exact ih r h x hxs htx

/-! ## The SQL claim functions -/

/-- WHERE test of claim_next_message: status = 'queued'. -/
def msgQueuedTest (r : MessageRow) : Bool := r.status == .queued

/-- Subselect of claim_next_message: one queued row, created_at ascending. -/
def selectQueuedMessage (rows : List MessageRow) : Option MessageRow :=
  selectBy msgQueuedTest MessageRow.createdAt rows

/-- SQL function claim_next_message(worker_id): update the selected queued row
to status = 'processing' and return the updated row; the worker_id argument is
unused by the SQL body.  No other column is written. -/
def claim_next_message (rows : List MessageRow) : List MessageRow × Option MessageRow :=
  match selectQueuedMessage rows with
  | none => (rows, none)
  | some r =>
    (rows.map (fun x => if x.id == r.id then { x with status := .processing } else x),
     some { r with status := .processing })

/-- Store client messages.claimNext: SELECT * FROM claim_next_message, first
row or null, wrapped in an ok result by withErrorHandling. -/
def messagesClaimNext (rows : List MessageRow) :
    List MessageRow × Except DbErr (Option MessageRow) :=
  ((claim_next_message rows).1, Except.ok (claim_next_message rows).2)

/-- WHERE test of claim_next_webhook_delivery: status = 'pending' AND
(last_attempt_at IS NULL OR last_attempt_at < NOW() - INTERVAL '30 seconds').
Time is in seconds here. -/
def wdEligible (now : Nat) (r : WebhookDeliveryRow) : Bool :=
  r.status == .pending &&
    (match r.lastAttemptAt with
     | none => true
     | some t => t + 30 < now)

/-- Subselect of claim_next_webhook_delivery. -/
def selectPendingDelivery (now : Nat) (rows : List WebhookDeliveryRow) :
    Option WebhookDeliveryRow :=
  selectBy (wdEligible now) WebhookDeliveryRow.createdAt rows

/-- SQL function claim_next_webhook_delivery(): update the selected pending
row with SET status = 'pending', attempts = attempts + 1,
last_attempt_at = NOW(), returning the updated row. -/
def claim_next_webhook_delivery (now : Nat) (rows : List WebhookDeliveryRow) :
    List WebhookDeliveryRow × Option WebhookDeliveryRow :=
  match selectPendingDelivery now rows with
  | none => (rows, none)
  | some r =>
    (rows.map (fun x =>
       if x.id == r.id then
         { x with status := .pending, attempts := x.attempts + 1, lastAttemptAt := some now }
       else x),
     some { r with status := .pending, attempts := r.attempts + 1, lastAttemptAt := some now })

/-! ## Suppression store operations (client.ts) -/

/-- Lowercasing as performed by toLowerCase(): character-wise lowercase over
the string's characters. -/
def lowerString (s : String) : String := String.mk (s.data.map Char.toLower)

/-- Row predicate of the suppression queries: api_key_id = k AND
email = <lowercased input>. -/
def suppressionMatch (apiKeyId : Nat) (emailLower : String) (r : SuppressionRow) : Bool :=
  r.apiKeyId == apiKeyId && r.email == emailLower

/-- suppressions.findByEmail: SELECT where api_key_id and email match the
lowercased input, LIMIT 1 (first matching row in table order). -/
def suppressionsFindByEmail (tbl : List SuppressionRow) (apiKeyId : Nat) (email : String) :
    Option SuppressionRow :=
  tbl.find? (suppressionMatch apiKeyId (lowerString email))

/-- Insert data for suppressions.create. -/
structure SuppressionInsert where
  apiKeyId : Nat
  email : String
  reason : SuppressionReason
deriving DecidableEq, Repr

/-- The row inserted by suppressions.create when no conflicting row exists:
the email is stored lowercased. -/
def suppressionNewRow (data : SuppressionInsert) (newId : Nat) : SuppressionRow :=
  { id := newId, apiKeyId := data.apiKeyId, email := lowerString data.email,
    reason := data.reason }

/-- suppressions.create: lowercase the email, INSERT ... ON CONFLICT
(api_key_id, email) DO NOTHING RETURNING *; when the insert returned no row
(the row already existed), SELECT the existing row and return it.  In this
sequential embedding the conflict test is performed first: the outcome is the
same pair (new table state, returned row). -/
def suppressionsCreate (tbl : List SuppressionRow) (data : SuppressionInsert) (newId : Nat) :
    List SuppressionRow × SuppressionRow :=
  match tbl.find? (suppressionMatch data.apiKeyId (lowerString data.email)) with
  | some existing => (tbl, existing)
  | none => (tbl ++ [suppressionNewRow data newId], suppressionNewRow data newId)

/-- suppressions.create as surfaced by the store client: the row wrapped in an
ok result (withErrorHandling only produces an error from a raised database
error, and ON CONFLICT DO NOTHING removes the unique-violation raise). -/
def suppressionsCreateClient (tbl : List SuppressionRow) (data : SuppressionInsert)
    (newId : Nat) : List SuppressionRow × Except DbErr SuppressionRow :=
  ((suppressionsCreate tbl data newId).1, Except.ok (suppressionsCreate tbl data newId).2)

/-! ## SMTP error classification (smtp/client.ts) -/

/-- Kind of a classified SMTP error. -/
inductive SmtpErrorType where
  | permanent
  | temporary
  | connection
  | unknown
deriving DecidableEq, Repr

/-- The raw error coming out of nodemailer: message, optional network error
code string, optional SMTP response code. -/
structure RawSendError where
  message : String
  code : Option String
  responseCode : Option Nat
deriving DecidableEq, Repr

/-- A classified SmtpError as built by its constructor (name, message, type,
responseCode, code fields). -/
structure SmtpErr where
  message : String
  type : SmtpErrorType
  responseCode : Option Nat
  code : Option String
deriving DecidableEq, Repr

/-- shouldRetry as assigned in the SmtpError constructor:
type is temporary or connection. -/
def SmtpErr.shouldRetry (e : SmtpErr) : Bool :=
  e.type == .temporary || e.type == .connection

/-- Hard bounce SMTP response codes (smtp/client.ts HARD_BOUNCE_CODES). -/
def HARD_BOUNCE_CODES : List Nat := [550, 551, 552, 553, 554]

/-- Soft bounce SMTP response codes (smtp/client.ts SOFT_BOUNCE_CODES). -/
def SOFT_BOUNCE_CODES : List Nat := [450, 451, 452]

/-- Connection error code strings (smtp/client.ts CONNECTION_ERROR_CODES). -/
def CONNECTION_ERROR_CODES : List String :=
  ["ECONNREFUSED", "ECONNRESET", "ETIMEDOUT", "ENOTFOUND",
   "EHOSTUNREACH", "ENETUNREACH", "ESOCKET", "ECONNECTION"]

/-- Response-code arm of classifySmtpError: for a truthy (present and
nonzero) responseCode, the hard-bounce list, the soft-bounce list, the 5xx
range, the 4xx range; everything else is unknown.  The unknown fallback does
not preserve the response code (the constructor is called without it). -/
def classifyByResponseCode (message : String) : Option Nat → SmtpErr
  | some rc =>
    if rc != 0 then
      if HARD_BOUNCE_CODES.contains rc then
        { message := message, type := .permanent, responseCode := some rc, code := none }
      else if SOFT_BOUNCE_CODES.contains rc then
        { message := message, type := .temporary, responseCode := some rc, code := none }
      else if 500 ≤ rc ∧ rc < 600 then
        { message := message, type := .permanent, responseCode := some rc, code := none }
      else if 400 ≤ rc ∧ rc < 500 then
        { message := message, type := .temporary, responseCode := some rc, code := none }
      else
        { message := message, type := .unknown, responseCode := none, code := none }
    else
      { message := message, type := .unknown, responseCode := none, code := none }
  | none =>
    { message := message, type := .unknown, responseCode := none, code := none }

/-- classifySmtpError: connection codes take precedence; otherwise the
response-code arm decides. -/
def classifySmtpError (e : RawSendError) : SmtpErr :=
  if e.code.any (fun c => CONNECTION_ERROR_CODES.contains c) then
    { message := e.message, type := .connection, responseCode := none, code := e.code }
  else
    classifyByResponseCode e.message e.responseCode

/-- isHardBounce: a permanent classification whose response code is defined
and in the hard bounce list. -/
def isHardBounce (e : SmtpErr) : Bool :=
  e.type == .permanent && e.responseCode.any (fun rc => HARD_BOUNCE_CODES.contains rc)

/-! ## Webhook emission (email.processor.ts triggerWebhookEvent) -/

/-- webhooks.findActiveByApiKey: active webhooks of the tenant (the ORDER BY
created_at DESC of the query only affects enumeration order). -/
def webhooksFindActiveByApiKey (tbl : List WebhookRow) (apiKeyId : Nat) : List WebhookRow :=
  tbl.filter (fun w => w.apiKeyId == apiKeyId && w.active)

/-- triggerWebhookEvent: for each active webhook of the tenant whose events
array contains the event, create one webhook_deliveries row with
status = 'pending' and the payload {event, timestamp, messageId, extras}.
The rows returned are the inserts performed. -/
def triggerWebhookEvent (webhooks : List WebhookRow) (apiKeyId messageId : Nat)
    (event : String) (now : Nat) (extras : PayloadExtras) : List WebhookDeliveryRow :=
  ((webhooksFindActiveByApiKey webhooks apiKeyId).filter
      (fun w => w.events.contains event)).map
    (fun w =>
      { id := 0, webhookId := w.id, messageId := some messageId, event := event,
        payload := { event := event, timestamp := now, messageId := messageId,
                     extras := extras },
        status := .pending, attempts := 0, lastAttemptAt := none, createdAt := now })

/-! ## Email processor (email.processor.ts) -/

/-- The data passed to db.messages.update by the processor: the status column
plus the optional columns each call site sets. -/
structure MessageUpdate where
  status : MessageStatus
  attempts : Option Nat := none
  sentAt : Option Nat := none
  failedAt : Option Nat := none
  failureReason : Option String := none
deriving DecidableEq, Repr

/-- The ProcessResult record returned by processMessage / processNext. -/
structure ProcessResult where
  messageId : Nat
  success : Bool
  status : MessageStatus
  error : Option String := none
  shouldRetry : Option Bool := none
deriving DecidableEq, Repr

/-- Outcome of smtp.send for a claimed message: success with the SMTP message
id, or a classified failure. -/
inductive SendOutcome where
  | success (smtpMessageId : String)
  | failure (e : SmtpErr)
deriving DecidableEq, Repr

/-- Everything processMessage does: its return value, the write to the
claimed message row, the resulting suppression table, the webhook delivery
rows inserted, and how many SMTP sends were attempted. -/
structure ProcOutcome where
  result : ProcessResult
  msgUpdate : MessageUpdate
  suppressions : List SuppressionRow
  deliveries : List WebhookDeliveryRow
  smtpSends : Nat
deriving DecidableEq, Repr

/-- processMessage for one claimed message.  The suppression check runs
first; when the recipient is suppressed the message is rejected without an
SMTP send.  Otherwise the send happens (its outcome is the send argument)
and the success / retry / terminal-failure branches of the source run.  The
DKIM lookup only shapes the SMTP call and is absorbed into the send outcome.
maxRetries is config.maxRetries, now the current time, newSuppressionId the
id a fresh suppression row would get. -/
def processMessage (maxRetries now newSuppressionId : Nat) (supp : List SuppressionRow)
    (webhooks : List WebhookRow) (msg : MessageRow) (send : SendOutcome) : ProcOutcome :=
  match suppressionsFindByEmail supp msg.apiKeyId msg.toAddress with
  | some s =>
    let reason := "Recipient suppressed: " ++ s.reason.str
    { result := { messageId := msg.id, success := false, status := .rejected,
                  error := some reason, shouldRetry := some false },
      msgUpdate := { status := .rejected, failedAt := some now, failureReason := some reason },
      suppressions := supp, deliveries := [], smtpSends := 0 }
  | none =>
    match send with
    | .success smtpMessageId =>
      { result := { messageId := msg.id, success := true, status := .sent },
        msgUpdate := { status := .sent, sentAt := some now },
        suppressions := supp,
        deliveries := triggerWebhookEvent webhooks msg.apiKeyId msg.id "message.sent" now
          { smtpMessageId := some smtpMessageId },
        smtpSends := 1 }
    | .failure e =>
      let newAttempts := msg.attempts + 1
      let maxRetriesReached : Bool := decide (maxRetries ≤ newAttempts)
      let retry := e.shouldRetry && !maxRetriesReached
      if retry then
        { result := { messageId := msg.id, success := false, status := .queued,
                      error := some e.message, shouldRetry := some true },
          msgUpdate := { status := .queued, attempts := some newAttempts,
                         failureReason := some e.message },
          suppressions := supp, deliveries := [], smtpSends := 1 }
      else
        let upd : MessageUpdate :=
          { status := .failed, attempts := some newAttempts, failedAt := some now,
            failureReason := some e.message }
        let res : ProcessResult :=
          { messageId := msg.id, success := false, status := .failed,
            error := some e.message, shouldRetry := some false }
        if isHardBounce e then
          { result := res, msgUpdate := upd,
            suppressions := (suppressionsCreate supp
              { apiKeyId := msg.apiKeyId, email := msg.toAddress, reason := .hard_bounce }
              newSuppressionId).1,
            deliveries := triggerWebhookEvent webhooks msg.apiKeyId msg.id "message.bounced"
              now { bounceType := some "hard", bounceCode := e.responseCode,
                    bounceMessage := some e.message },
            smtpSends := 1 }
        else
          { result := res, msgUpdate := upd, suppressions := supp,
            deliveries := triggerWebhookEvent webhooks msg.apiKeyId msg.id "message.failed"
              now { failureReason := some e.message },
            smtpSends := 1 }

/-- The catch branch of processNext: when processMessage throws an unexpected
exception, the worker writes the message back with status = 'queued',
attempts = attempts + 1 and failure_reason "Processing error: <message>", and
returns a queued ProcessResult with shouldRetry true.  No configuration is
consulted. -/
def processNextCatch (msg : MessageRow) (errMessage : String) :
    MessageUpdate × ProcessResult :=
  ({ status := .queued, attempts := some (msg.attempts + 1),
     failureReason := some ("Processing error: " ++ errMessage) },
   { messageId := msg.id, success := false, status := .queued,
     error := some errMessage, shouldRetry := some true })

/-! ## Webhook dispatcher (webhook.processor processDelivery)

For claim C1 only the all-POSTs-fail trajectory of one delivery row matters.
wdCycle is one full dispatcher cycle on a single-row table whose webhook
exists and is active and whose POST fails (any non-2xx status, timeout or
network error): the claim (which itself increments attempts), one POST, then
the failure write of processDelivery with newAttempts = claimed.attempts + 1,
terminal when newAttempts reaches config.maxWebhookRetries.  The second
component counts the POSTs the cycle performed. -/

/-- One dispatcher cycle over the single delivery row r at time now, with the
POST failing.  Returns the row as left in the table and the number of POSTs
performed (1 when the row was claimed, 0 when the claim found nothing). -/
def wdCycle (maxWebhookRetries now : Nat) (r : WebhookDeliveryRow) :
    WebhookDeliveryRow × Nat :=
  match (claim_next_webhook_delivery now [r]).2 with
  | none => (r, 0)
  | some d =>
    let newAttempts := d.attempts + 1
    if maxWebhookRetries ≤ newAttempts then
      ({ d with status := .failed, attempts := newAttempts, lastAttemptAt := some now }, 1)
    else
      ({ d with status := .pending, attempts := newAttempts, lastAttemptAt := some now }, 1)

/-- Iterated failing dispatcher cycles at the given claim times. -/
def runFailingDispatch (maxWebhookRetries : Nat) :
    List Nat → WebhookDeliveryRow → WebhookDeliveryRow × Nat
  | [], r => (r, 0)
  | t :: ts, r =>
    let s := wdCycle maxWebhookRetries t r
    let rest := runFailingDispatch maxWebhookRetries ts s.1
    (rest.1, s.2 + rest.2)

/-! ## HMAC-SHA256 and webhook signing (webhook.processor)

The source signs with createHmac using the sha256 algorithm and a hex digest.
The primitive is embedded here in full (FIPS 180-4 and FIPS 198-1) over byte
lists, with 32-bit words as naturals reduced modulo 2^32. -/

/-- Addition modulo 2^32. -/
def add32 (a b : Nat) : Nat := (a + b) % 4294967296

/-- Truncation to 32 bits. -/
def mask32 (a : Nat) : Nat := a % 4294967296

/-- Right rotation of a 32-bit word by n places. -/
def rotr32 (n x : Nat) : Nat := mask32 ((x >>> n) ||| (x <<< (32 - n)))

/-- Bitwise complement of a 32-bit word. -/
def not32 (x : Nat) : Nat := x ^^^ 4294967295

/-- SHA-256 choose function. -/
def shaCh (x y z : Nat) : Nat := (x &&& y) ^^^ (not32 x &&& z)

/-- SHA-256 majority function. -/
def shaMaj (x y z : Nat) : Nat := (x &&& y) ^^^ (x &&& z) ^^^ (y &&& z)

/-- Big sigma 0. -/
def bsig0 (x : Nat) : Nat := rotr32 2 x ^^^ rotr32 13 x ^^^ rotr32 22 x

/-- Big sigma 1. -/
def bsig1 (x : Nat) : Nat := rotr32 6 x ^^^ rotr32 11 x ^^^ rotr32 25 x

/-- Small sigma 0. -/
def ssig0 (x : Nat) : Nat := rotr32 7 x ^^^ rotr32 18 x ^^^ (x >>> 3)

/-- Small sigma 1. -/
def ssig1 (x : Nat) : Nat := rotr32 17 x ^^^ rotr32 19 x ^^^ (x >>> 10)

/-- The 64 SHA-256 round constants (FIPS 180-4 section 4.2.2), written in
decimal. -/
def sha256K : Array Nat :=
  #[1116352408, 1899447441, 3049323471, 3921009573, 961987163,
    1508970993, 2453635748, 2870763221, 3624381080, 310598401,
    607225278, 1426881987, 1925078388, 2162078206, 2614888103,
    3248222580, 3835390401, 4022224774, 264347078, 604807628,
    770255983, 1249150122, 1555081692, 1996064986, 2554220882,
    2821834349, 2952996808, 3210313671, 3336571891, 3584528711,
    113926993, 338241895, 666307205, 773529912, 1294757372,
    1396182291, 1695183700, 1986661051, 2177026350, 2456956037,
    2730485921, 2820302411, 3259730800, 3345764771, 3516065817,
    3600352804, 4094571909, 275423344, 430227734, 506948616,
    659060556, 883997877, 958139571, 1322822218, 1537002063,
    1747873779, 1955562222, 2024104815, 2227730452, 2361852424,
    2428436474, 2756734187, 3204031479, 3329325298]

/-- The eight SHA-256 initial hash values (FIPS 180-4 section 5.3.3), written
in decimal. -/
def sha256H0 : Array Nat :=
  #[1779033703, 3144134277, 1013904242, 2773480762,
    1359893119, 2600822924, 528734635, 1541459225]

/-- Big-endian byte serialization of x on n bytes. -/
def toBytesBE : Nat → Nat → List Nat
  | 0, _ => []
  | k + 1, x => ((x >>> (8 * k)) % 256) :: toBytesBE k x

/-- SHA-256 padding: append 0x80, zero bytes, then the 64-bit big-endian bit
length, reaching a multiple of 64 bytes. -/
def sha256Pad (msg : List Nat) : List Nat :=
  let padZeros := (55 + 64 - msg.length % 64) % 64
  msg ++ [0x80] ++ List.replicate padZeros 0 ++ toBytesBE 8 (msg.length * 8)

/-- Split a byte list into 64-byte blocks. -/
def chunks64 : List Nat → List (List Nat)
  | [] => []
  | a :: as => (a :: as).take 64 :: chunks64 ((a :: as).drop 64)
termination_by l => l.length
decreasing_by
  simp [List.length_drop]
  omega

/-- Big-endian 32-bit words of a byte list (4 bytes per word). -/
def wordsOfBytes : List Nat → List Nat
  | b0 :: b1 :: b2 :: b3 :: rest => (((b0 * 256 + b1) * 256 + b2) * 256 + b3) :: wordsOfBytes rest
  | _ => []

/-- Message schedule expansion to 64 words. -/
def sha256Extend (w : Array Nat) (t : Nat) : Array Nat :=
  if h : t < 64 then
    let v := add32 (add32 (ssig1 (w.getD (t - 2) 0)) (w.getD (t - 7) 0))
                   (add32 (ssig0 (w.getD (t - 15) 0)) (w.getD (t - 16) 0))
    sha256Extend (w.push v) (t + 1)
  else w
termination_by 64 - t

/-- One round of the SHA-256 compression loop; the state is
(a, b, c, d, e, f, g, h). -/
def sha256Round (w : Array Nat) (st : Nat × Nat × Nat × Nat × Nat × Nat × Nat × Nat)
    (t : Nat) : Nat × Nat × Nat × Nat × Nat × Nat × Nat × Nat :=
  match st with
  | (a, b, c, d, e, f, g, h) =>
    let t1 := add32 (add32 (add32 h (bsig1 e)) (add32 (shaCh e f g) (sha256K.getD t 0)))
                    (w.getD t 0)
    let t2 := add32 (bsig0 a) (shaMaj a b c)
    (add32 t1 t2, a, b, c, add32 d t1, e, f, g)

/-- Compression of one 64-byte block into the running 8-word state. -/
def sha256Compress (st : Array Nat) (block : List Nat) : Array Nat :=
  let w := sha256Extend (List.toArray (wordsOfBytes block)) 16
  let init := (st.getD 0 0, st.getD 1 0, st.getD 2 0, st.getD 3 0,
               st.getD 4 0, st.getD 5 0, st.getD 6 0, st.getD 7 0)
  match (List.range 64).foldl (sha256Round w) init with
  | (a, b, c, d, e, f, g, h) =>
    #[add32 (st.getD 0 0) a, add32 (st.getD 1 0) b, add32 (st.getD 2 0) c,
      add32 (st.getD 3 0) d, add32 (st.getD 4 0) e, add32 (st.getD 5 0) f,
      add32 (st.getD 6 0) g, add32 (st.getD 7 0) h]

/-- SHA-256 of a byte list, as a 32-byte list. -/
def sha256 (msg : List Nat) : List Nat :=
  let final := (chunks64 (sha256Pad msg)).foldl sha256Compress sha256H0
  (final.toList.map (toBytesBE 4)).flatten

/-- HMAC-SHA256 (FIPS 198-1) with a 64-byte block size. -/
def hmacSha256 (key msg : List Nat) : List Nat :=
  let k0 := if 64 < key.length then sha256 key else key
  let k := k0 ++ List.replicate (64 - k0.length) 0
  let ipadKey := k.map (fun b => b ^^^ 0x36)
  let opadKey := k.map (fun b => b ^^^ 0x5c)
  sha256 (opadKey ++ sha256 (ipadKey ++ msg))

/-- The sixteen lowercase hex digits, in value order: the ten decimal digit
characters followed by the six lowercase letters a through f. -/
def lowercaseHexDigits : List Char :=
  (List.range 10).map (fun n => Char.ofNat (48 + n)) ++
    (List.range 6).map (fun n => Char.ofNat (97 + n))

/-- Hex digit character of a value below 16. -/
def hexDigit (n : Nat) : Char := lowercaseHexDigits.getD n '0'

/-- Lowercase hex string of a byte list, two digits per byte, as produced by
a hex digest. -/
def hexOfBytes (l : List Nat) : String :=
  String.mk ((l.map (fun b => [hexDigit (b / 16 % 16), hexDigit (b % 16)])).flatten)

/-- UTF-8 bytes of a string. -/
def strBytes (s : String) : List Nat :=
  s.toUTF8.data.toList.map UInt8.toNat

/-- generateSignature: hex digest of the HMAC-SHA256 of the payload keyed by
the secret. -/
def generateSignature (payload secret : String) : String :=
  hexOfBytes (hmacSha256 (strBytes secret) (strBytes payload))

/-- generateWebhookHeaders: the four headers of every webhook POST.  nowMs is
the millisecond epoch Date.now() of the dispatch attempt; the signed string is
"{timestamp}.{payload}" where payload is the serialized JSON body POSTed. -/
def generateWebhookHeaders (nowMs : Nat) (payload secret event : String) :
    List (String × String) :=
  let timestamp := toString nowMs
  let signatureData := timestamp ++ "." ++ payload
  let signature := generateSignature signatureData secret
  [("Content-Type", "application/json"),
   ("X-OpenSend-Event", event),
   ("X-OpenSend-Timestamp", timestamp),
   ("X-OpenSend-Signature", "v1=" ++ signature)]

/-! ## Concrete example rows used by witnesses and counterexamples -/

/-- A queued message with zero attempts. -/
def msgEx : MessageRow :=
  { id := 1, apiKeyId := 10, fromAddress := "noreply@ex.com", toAddress := "B@Ex.com",
    subject := some "hi", body := some "txt", htmlBody := none, attempts := 0,
    status := .queued, createdAt := 5, failureReason := none }

/-- A second queued message, created later than msgEx. -/
def msgEx2 : MessageRow := { msgEx with id := 2, createdAt := 9 }

/-- A freshly inserted pending webhook delivery. -/
def wdEx : WebhookDeliveryRow :=
  { id := 1, webhookId := 7, messageId := some 3, event := "message.sent",
    payload := { event := "message.sent", timestamp := 0, messageId := 3, extras := {} },
    status := .pending, attempts := 0, lastAttemptAt := none, createdAt := 0 }

/-- An active webhook of tenant 10 subscribed to the processor's events. -/
def whEx : WebhookRow :=
  { id := 7, apiKeyId := 10, url := "https://hooks.ex",
    events := ["message.sent", "message.bounced", "message.failed"],
    secret := "sek", active := true }

/-! ## Claim theorems -/

/-- C6: claim_next_message atomically selects one queued row with minimal
created_at (ascending order), marks it processing and returns it; a second
claim on the resulting state never returns a row with the same id (the
skip-locked claim is serialized as atomic steps on the table state); and when
no queued row exists the store client surfaces a null-valued ok result. -/
theorem C6_claim_next_message_contract :
    (∀ (rows : List MessageRow) (r : MessageRow), (claim_next_message rows).2 = some r →
       r.status = .processing ∧
       ∃ q ∈ rows, q.status = .queued ∧ r = { q with status := .processing } ∧
         (∀ x ∈ rows, x.status = .queued → q.createdAt ≤ x.createdAt) ∧
         (claim_next_message rows).1 =
           rows.map (fun x => if x.id == q.id then { x with status := .processing } else x))
    ∧ (∀ (rows : List MessageRow) (r r2 : MessageRow),
        (claim_next_message rows).2 = some r →
        (claim_next_message (claim_next_message rows).1).2 = some r2 → r2.id ≠ r.id)
    ∧ (∀ (rows : List MessageRow), (∀ x ∈ rows, x.status ≠ .queued) →
        messagesClaimNext rows = (rows, Except.ok none)) := by
  refine ⟨?_, ?_, ?_⟩
  · intro rows r h
    unfold claim_next_message at h ⊢
    cases hsel : selectQueuedMessage rows with
    | none => rw [hsel] at h; cases h
    | some q =>
      rw [hsel] at h
      cases h
      rcases selectBy_mem _ _ rows q hsel with ⟨hm, ht⟩
      refine ⟨rfl, q, hm, ?_, rfl, ?_, rfl⟩
      · simpa [msgQueuedTest] using ht
      · intro x hx hqx
        exact selectBy_min _ _ rows q hsel x hx (by simpa [msgQueuedTest] using hqx)
  · intro rows r r2 h1 h2 hid
    unfold claim_next_message at h1 h2
    cases hsel1 : selectQueuedMessage rows with
    | none => rw [hsel1] at h1; cases h1
    | some q =>
      rw [hsel1] at h1 h2
      cases h1
      cases hsel2 : selectQueuedMessage
          (rows.map (fun x => if x.id == q.id then { x with status := .processing } else x)) with
      | none => rw [hsel2] at h2; cases h2
      | some q2 =>
        rw [hsel2] at h2
        cases h2
        rcases selectBy_mem _ _ _ q2 hsel2 with ⟨hm2, ht2⟩
        have hq2 : q2.status = .queued := by simpa [msgQueuedTest] using ht2
        rcases List.mem_map.mp hm2 with ⟨x, hx, hfx⟩
        by_cases hxq : x.id == q.id
        · rw [if_pos hxq] at hfx
          rw [← hfx] at hq2
          simp at hq2
        · rw [if_neg hxq] at hfx
          have hq2id : q2.id = q.id := by simpa using hid
          exact hxq (by simp [hfx, hq2id])
  · intro rows h
    have hsel : selectQueuedMessage rows = none := by
      apply (selectBy_none msgQueuedTest MessageRow.createdAt rows).mpr
      intro x hx
      simpa [msgQueuedTest] using h x hx
    simp [messagesClaimNext, claim_next_message, hsel]

/-- Witness for C6: on the table [msgEx2, msgEx] the first claim takes msgEx
(the older row), the second claim takes a row with a different id, and a
fully processed table yields an ok-null claim. -/
theorem C6_witness :
    ({ msgEx2 with status := MessageStatus.processing } : MessageRow).id ≠
      ({ msgEx with status := MessageStatus.processing } : MessageRow).id ∧
    messagesClaimNext [{ msgEx with status := MessageStatus.processing }] =
      ([{ msgEx with status := MessageStatus.processing }], Except.ok none) :=
  ⟨C6_claim_next_message_contract.2.1 [msgEx2, msgEx] _ _ (by decide) (by decide),
   C6_claim_next_message_contract.2.2 [{ msgEx with status := MessageStatus.processing }]
     (by decide)⟩

/-- C2 counterexample: claim_next_message does not update the attempts
counter of the claimed row, although the messages table has an attempts
column: on a single-row table the claimed row keeps attempts = 0, where the
claim as stated requires the atomic claim to have incremented it. -/
theorem C2_counterexample :
    (claim_next_message [msgEx]).2 = some { msgEx with status := MessageStatus.processing } ∧
    ({ msgEx with status := MessageStatus.processing } : MessageRow).attempts = msgEx.attempts ∧
    msgEx.attempts = 0 ∧
    (claim_next_message [msgEx]).1.map MessageRow.attempts ≠ [msgEx.attempts + 1] := by
  decide

/-- C2 amended: claim_next_webhook_delivery updates attempts (incremented by
one) and last_attempt_at (set to the claim time) as part of the atomic claim;
claim_next_message changes only the status column of the claimed row — its
attempts counter is left unchanged by the claim (the messages table has no
last_attempt_at column at all). -/
theorem C2_claim_side_effects :
    (∀ (now : Nat) (rows : List WebhookDeliveryRow) (d : WebhookDeliveryRow),
       selectPendingDelivery now rows = some d →
       (claim_next_webhook_delivery now rows).2 =
         some { d with status := .pending, attempts := d.attempts + 1,
                       lastAttemptAt := some now })
    ∧ (∀ (rows : List MessageRow) (q : MessageRow), selectQueuedMessage rows = some q →
       (claim_next_message rows).2 = some { q with status := .processing }) := by
  constructor
  · intro now rows d h
    unfold claim_next_webhook_delivery
    rw [h]
  · intro rows q h
    unfold claim_next_message
    rw [h]

/-- Witness for C2: concrete single-row tables. -/
theorem C2_witness :
    (claim_next_webhook_delivery 100 [wdEx]).2 =
      some { wdEx with status := WebhookDeliveryStatus.pending, attempts := wdEx.attempts + 1,
                       lastAttemptAt := some 100 } ∧
    (claim_next_message [msgEx]).2 = some { msgEx with status := MessageStatus.processing } :=
  ⟨C2_claim_side_effects.1 100 [wdEx] wdEx (by decide),
   C2_claim_side_effects.2 [msgEx] msgEx (by decide)⟩

/-- Invariant of the all-POSTs-fail dispatcher trajectory with the default
max_webhook_retries = 5: while the row is pending its attempts counter is
twice the number of POSTs performed (the claim and the failure write each add
one), at most two cycles have completed; once failed, exactly three POSTs
happened and attempts is six. -/
def failRunInv (r : WebhookDeliveryRow) (p : Nat) : Prop :=
  (r.status = .pending ∧ r.attempts = 2 * p ∧ p ≤ 2) ∨
  (r.status = .failed ∧ r.attempts = 6 ∧ p = 3)

theorem claimWD_single (now : Nat) (r : WebhookDeliveryRow) :
    (claim_next_webhook_delivery now [r]).2 =
      if wdEligible now r then
        some { r with status := .pending, attempts := r.attempts + 1,
                      lastAttemptAt := some now }
      else none := by
  by_cases he : wdEligible now r <;>
    simp [claim_next_webhook_delivery, selectPendingDelivery, selectBy, he]

theorem wdCycle_inv (now : Nat) (r : WebhookDeliveryRow) (p : Nat) (h : failRunInv r p) :
    failRunInv (wdCycle 5 now r).1 (p + (wdCycle 5 now r).2) := by
  rcases h with ⟨hs, ha, hp⟩ | ⟨hs, ha, hp⟩
  · by_cases he : wdEligible now r
    · by_cases h5 : (5 : Nat) ≤ r.attempts + 1 + 1
      · simp only [wdCycle, claimWD_single, he, if_true, h5, failRunInv]
        simp
        omega
      · simp only [wdCycle, claimWD_single, he, if_true, if_neg h5, failRunInv]
        simp
        omega
    · simp only [wdCycle, claimWD_single, he, Bool.false_eq_true, if_false]
      simp only [Nat.add_zero]
      exact Or.inl ⟨hs, ha, hp⟩
  · have he : wdEligible now r = false := by simp [wdEligible, hs]
    simp only [wdCycle, claimWD_single, he, Bool.false_eq_true, if_false]
    simp only [Nat.add_zero]
    exact Or.inr ⟨hs, ha, hp⟩

theorem runFailingDispatch_inv :
    ∀ (ts : List Nat) (r : WebhookDeliveryRow) (p : Nat), failRunInv r p →
      failRunInv (runFailingDispatch 5 ts r).1 (p + (runFailingDispatch 5 ts r).2) := by
  intro ts
  induction ts with
  | nil => intro r p h; simpa [runFailingDispatch] using h
  | cons t ts ih =>
    intro r p h
    have hstep := wdCycle_inv t r p h
    have hrest := ih (wdCycle 5 t r).1 (p + (wdCycle 5 t r).2) hstep
    simpa [runFailingDispatch, Nat.add_assoc] using hrest

/-- C1 counterexample: starting from a fresh pending delivery (attempts = 0)
with the default max_webhook_retries = 5 and every POST failing, the
dispatcher performs only three POSTs before the row is marked failed — not
five — and a single cycle performs one POST while advancing the attempts
counter from 0 to 2, not by exactly one per POST. -/
theorem C1_counterexample :
    (runFailingDispatch 5 [100, 200, 300, 400, 500, 600] wdEx).2 = 3 ∧
    (runFailingDispatch 5 [100, 200, 300, 400, 500, 600] wdEx).1.status =
      WebhookDeliveryStatus.failed ∧
    (3 : Nat) ≠ 5 ∧
    (runFailingDispatch 5 [100] wdEx).2 = 1 ∧
    (runFailingDispatch 5 [100] wdEx).1.attempts = 2 ∧
    wdEx.attempts = 0 := by
  decide

/-- C1 amended: with the default max_webhook_retries = 5, a delivery whose
POSTs all fail is POSTed at most three times over any schedule of dispatcher
cycles; when it reaches failed, exactly three POSTs have occurred and its
attempts counter is six (each performed POST advances attempts by two: one
increment from claim_next_webhook_delivery, one from the failure write); a
fourth POST never occurs, so in particular a sixth never does. -/
theorem C1_webhook_retry_bound :
    ∀ (ts : List Nat) (r : WebhookDeliveryRow),
      r.status = .pending → r.attempts = 0 →
      (runFailingDispatch 5 ts r).2 ≤ 3 ∧
      ((runFailingDispatch 5 ts r).1.status = .failed →
        (runFailingDispatch 5 ts r).2 = 3 ∧ (runFailingDispatch 5 ts r).1.attempts = 6) ∧
      ((runFailingDispatch 5 ts r).1.status = .pending →
        (runFailingDispatch 5 ts r).1.attempts = 2 * (runFailingDispatch 5 ts r).2) := by
  intro ts r hs ha
  have h0 : failRunInv r 0 := Or.inl ⟨hs, by omega, by omega⟩
  have h := runFailingDispatch_inv ts r 0 h0
  rw [Nat.zero_add] at h
  rcases h with ⟨h1, h2, h3⟩ | ⟨h1, h2, h3⟩
  · refine ⟨by omega, ?_, ?_⟩
    · intro hf; rw [h1] at hf; cases hf
    · intro _; omega
  · refine ⟨by omega, ?_, ?_⟩
    · intro _; exact ⟨h3, h2⟩
    · intro hp; rw [h1] at hp; cases hp

/-- Witness for C1 amended: the concrete six-cycle schedule. -/
theorem find?_append_of_none {α : Type} (p : α → Bool) (l1 l2 : List α)
    (h : l1.find? p = none) : (l1 ++ l2).find? p = l2.find? p := by
  induction l1 with
  | nil => simp
  | cons a as ih =>
    rw [List.find?_cons] at h
    cases hpa : p a with
    | true => rw [hpa] at h; cases h
    | false =>
      rw [hpa] at h
      rw [List.cons_append, List.find?_cons, hpa]
      exact ih h

/-- C10: suppressions.create is idempotent.  After any create, a second
create for the same tenant and the same email up to letter case (any reason,
any fresh id) leaves the table unchanged and returns, as an ok result, the
very row the first create returned — which is a row of the table, so its
original reason is preserved; no duplicate-key error is possible. -/
theorem C10_suppressions_create_idempotent :
    ∀ (tbl : List SuppressionRow) (d d2 : SuppressionInsert) (id1 id2 : Nat),
      d2.apiKeyId = d.apiKeyId → lowerString d2.email = lowerString d.email →
      suppressionsCreateClient (suppressionsCreate tbl d id1).1 d2 id2 =
        ((suppressionsCreate tbl d id1).1, Except.ok (suppressionsCreate tbl d id1).2) ∧
      (suppressionsCreate tbl d id1).2 ∈ (suppressionsCreate tbl d id1).1 := by
  intro tbl d d2 id1 id2 hk he
  have hpred : suppressionMatch d2.apiKeyId (lowerString d2.email) =
      suppressionMatch d.apiKeyId (lowerString d.email) := by rw [hk, he]
  cases hfind : tbl.find? (suppressionMatch d.apiKeyId (lowerString d.email)) with
  | some existing =>
    have h1 : suppressionsCreate tbl d id1 = (tbl, existing) := by
      simp [suppressionsCreate, hfind]
    rw [h1]
    constructor
    · simp [suppressionsCreateClient, suppressionsCreate, hpred, hfind]
    · exact List.mem_of_find?_eq_some hfind
  | none =>
    have h1 : suppressionsCreate tbl d id1 =
        (tbl ++ [suppressionNewRow d id1], suppressionNewRow d id1) := by
      simp [suppressionsCreate, hfind]
    have h2 : (tbl ++ [suppressionNewRow d id1]).find?
        (suppressionMatch d.apiKeyId (lowerString d.email)) = some (suppressionNewRow d id1) := by
      rw [find?_append_of_none _ _ _ hfind]
      simp [List.find?_cons, suppressionMatch, suppressionNewRow]
    rw [h1]
    constructor
    · simp [suppressionsCreateClient, suppressionsCreate, hpred, h2]
    · simp

/-- Witness for C10: a create on the empty table followed by a create for the
same tenant with the same address in a different case and a different
reason. -/
theorem C10_witness :
    suppressionsCreateClient
        (suppressionsCreate [] { apiKeyId := 10, email := "B@Ex.com", reason := .manual } 5).1
        { apiKeyId := 10, email := "b@ex.COM", reason := .hard_bounce } 6 =
      ((suppressionsCreate [] { apiKeyId := 10, email := "B@Ex.com", reason := .manual } 5).1,
       Except.ok
         (suppressionsCreate [] { apiKeyId := 10, email := "B@Ex.com", reason := .manual } 5).2) ∧
    (suppressionsCreate [] { apiKeyId := 10, email := "B@Ex.com", reason := .manual } 5).2 ∈
      (suppressionsCreate [] { apiKeyId := 10, email := "B@Ex.com", reason := .manual } 5).1 :=
  C10_suppressions_create_idempotent []
    { apiKeyId := 10, email := "B@Ex.com", reason := .manual }
    { apiKeyId := 10, email := "b@ex.COM", reason := .hard_bounce } 5 6 rfl (by decide)

/-- A pre-existing suppression row for tenant 10 and address b@ex.com. -/
def suppEx : SuppressionRow :=
  { id := 3, apiKeyId := 10, email := "b@ex.com", reason := .manual }

/-- C5: when the recipient address, lowercased, has a suppression row for the
message's tenant, the worker marks the message rejected with failure reason
"Recipient suppressed: <reason>", performs no SMTP send, emits no webhook
delivery, and leaves the suppression table unchanged. -/
theorem C5_suppressed_recipient :
    ∀ (maxRetries now sid : Nat) (supp : List SuppressionRow) (webhooks : List WebhookRow)
      (msg : MessageRow) (send : SendOutcome) (s : SuppressionRow),
      suppressionsFindByEmail supp msg.apiKeyId msg.toAddress = some s →
      (s.apiKeyId = msg.apiKeyId ∧ s.email = lowerString msg.toAddress ∧ s ∈ supp) ∧
      processMessage maxRetries now sid supp webhooks msg send =
        { result := { messageId := msg.id, success := false, status := .rejected,
                      error := some ("Recipient suppressed: " ++ s.reason.str),
                      shouldRetry := some false },
          msgUpdate := { status := .rejected, failedAt := some now,
                         failureReason := some ("Recipient suppressed: " ++ s.reason.str) },
          suppressions := supp, deliveries := [], smtpSends := 0 } := by
  intro maxRetries now sid supp webhooks msg send s h
  have hmatch : suppressionMatch msg.apiKeyId (lowerString msg.toAddress) s = true :=
    List.find?_some (by simpa [suppressionsFindByEmail] using h)
  have hmem : s ∈ supp :=
    List.mem_of_find?_eq_some (by simpa [suppressionsFindByEmail] using h)
  rcases (by simpa [suppressionMatch] using hmatch : s.apiKeyId = msg.apiKeyId ∧
      s.email = lowerString msg.toAddress) with ⟨hk, he⟩
  exact ⟨⟨hk, he, hmem⟩, by simp [processMessage, h]⟩

/-- Witness for C5: msgEx addressed to B@Ex.com with a manual suppression of
b@ex.com for its tenant. -/
theorem C5_witness :
    (suppEx.apiKeyId = msgEx.apiKeyId ∧ suppEx.email = lowerString msgEx.toAddress ∧
      suppEx ∈ [suppEx]) ∧
    processMessage 3 50 99 [suppEx] [whEx] msgEx (SendOutcome.success "sid") =
      { result := { messageId := msgEx.id, success := false, status := .rejected,
                    error := some ("Recipient suppressed: " ++ suppEx.reason.str),
                    shouldRetry := some false },
        msgUpdate := { status := .rejected, failedAt := some 50,
                       failureReason := some ("Recipient suppressed: " ++ suppEx.reason.str) },
        suppressions := [suppEx], deliveries := [], smtpSends := 0 } :=
  C5_suppressed_recipient 3 50 99 [suppEx] [whEx] msgEx (SendOutcome.success "sid") suppEx
    (by decide)

/-- C3: on a classified SMTP send failure the worker computes
new_attempts = attempts + 1 and retries exactly when the error is retryable
and new_attempts < max_retries: the retry write is status = queued with
attempts = new_attempts and failure_reason = the error message and no webhook
is emitted; otherwise the write is status = failed with failed_at set (and
the attempt counter and failure reason recorded).  With max_retries = 0 the
first failure is terminal: the message is written failed, never queued. -/
theorem C3_send_failure_retry_rule :
    ∀ (maxRetries now sid : Nat) (supp : List SuppressionRow) (webhooks : List WebhookRow)
      (msg : MessageRow) (e : SmtpErr) (o : ProcOutcome),
      suppressionsFindByEmail supp msg.apiKeyId msg.toAddress = none →
      processMessage maxRetries now sid supp webhooks msg (SendOutcome.failure e) = o →
      (e.shouldRetry = true ∧ msg.attempts + 1 < maxRetries →
        o.msgUpdate = { status := .queued, attempts := some (msg.attempts + 1),
                        failureReason := some e.message } ∧
        o.deliveries = [] ∧ o.result.status = .queued) ∧
      (¬(e.shouldRetry = true ∧ msg.attempts + 1 < maxRetries) →
        o.msgUpdate = { status := .failed, attempts := some (msg.attempts + 1),
                        failedAt := some now, failureReason := some e.message } ∧
        o.result.status = .failed) ∧
      (maxRetries = 0 → o.msgUpdate.status = .failed ∧ o.result.status = .failed) := by
  intro maxRetries now sid supp webhooks msg e o h ho
  subst ho
  have hiff : (e.shouldRetry && !(decide (maxRetries ≤ msg.attempts + 1))) = true ↔
      (e.shouldRetry = true ∧ msg.attempts + 1 < maxRetries) := by
    simp [Bool.and_eq_true, Nat.lt_iff_add_one_le, Nat.not_le]
  refine ⟨?_, ?_, ?_⟩
  · intro hc
    have hb : (e.shouldRetry && !(decide (maxRetries ≤ msg.attempts + 1))) = true :=
      hiff.mpr hc
    simp [processMessage, h, hb]
  · intro hc
    have hb : (e.shouldRetry && !(decide (maxRetries ≤ msg.attempts + 1))) = false := by
      rcases Bool.eq_false_or_eq_true (e.shouldRetry && !(decide (maxRetries ≤ msg.attempts + 1)))
        with ht | hf
      · exact absurd (hiff.mp ht) hc
      · exact hf
    by_cases hhb : isHardBounce e
    · simp [processMessage, h, hb, hhb]
    · simp [processMessage, h, hb, hhb]
  · intro h0
    subst h0
    have hb : (e.shouldRetry && !(decide ((0 : Nat) ≤ msg.attempts + 1))) = false := by
      simp
    by_cases hhb : isHardBounce e
    · simp [processMessage, h, hb, hhb]
    · simp [processMessage, h, hb, hhb]

/-- A classified temporary 451 failure, as the classifier produces it. -/
def smtpErr451 : SmtpErr :=
  { message := "451 try again", type := .temporary, responseCode := some 451, code := none }

/-- Witness for C3: a temporary 451 failure of msgEx under max_retries = 3. -/
theorem C3_witness :
    (smtpErr451.shouldRetry = true ∧ msgEx.attempts + 1 < 3 →
      (processMessage 3 50 99 [] [whEx] msgEx (SendOutcome.failure smtpErr451)).msgUpdate =
        { status := .queued, attempts := some (msgEx.attempts + 1),
          failureReason := some smtpErr451.message } ∧
      (processMessage 3 50 99 [] [whEx] msgEx (SendOutcome.failure smtpErr451)).deliveries =
        [] ∧
      (processMessage 3 50 99 [] [whEx] msgEx
          (SendOutcome.failure smtpErr451)).result.status = .queued) ∧
    (¬(smtpErr451.shouldRetry = true ∧ msgEx.attempts + 1 < 3) →
      (processMessage 3 50 99 [] [whEx] msgEx (SendOutcome.failure smtpErr451)).msgUpdate =
        { status := .failed, attempts := some (msgEx.attempts + 1), failedAt := some 50,
          failureReason := some smtpErr451.message } ∧
      (processMessage 3 50 99 [] [whEx] msgEx
          (SendOutcome.failure smtpErr451)).result.status = .failed) ∧
    ((3 : Nat) = 0 →
      (processMessage 3 50 99 [] [whEx] msgEx
          (SendOutcome.failure smtpErr451)).msgUpdate.status = .failed ∧
      (processMessage 3 50 99 [] [whEx] msgEx
          (SendOutcome.failure smtpErr451)).result.status = .failed) :=
  C3_send_failure_retry_rule 3 50 99 [] [whEx] msgEx smtpErr451 _ (by decide) rfl

/-- C4: a terminal send failure that is a hard bounce — permanent
classification with a response code in {550, 551, 552, 553, 554} — writes
status = failed with failed_at, upserts a suppression row for the tenant and
the lowercased recipient address with reason hard_bounce, and emits
message.bounced deliveries whose payload carries bounceType "hard", the
bounce code and the bounce message; any other terminal failure emits
message.failed deliveries and creates no suppression. -/
theorem C4_hard_bounce_terminal :
    ∀ (maxRetries now sid : Nat) (supp : List SuppressionRow) (webhooks : List WebhookRow)
      (msg : MessageRow) (e : SmtpErr) (o : ProcOutcome),
      suppressionsFindByEmail supp msg.apiKeyId msg.toAddress = none →
      processMessage maxRetries now sid supp webhooks msg (SendOutcome.failure e) = o →
      ¬(e.shouldRetry = true ∧ msg.attempts + 1 < maxRetries) →
      (isHardBounce e = true ↔
        e.type = .permanent ∧ ∃ c, e.responseCode = some c ∧ c ∈ HARD_BOUNCE_CODES) ∧
      (isHardBounce e = true →
        o.msgUpdate.status = .failed ∧ o.msgUpdate.failedAt = some now ∧
        o.suppressions = supp ++ [suppressionNewRow
          { apiKeyId := msg.apiKeyId, email := msg.toAddress, reason := .hard_bounce } sid] ∧
        (∃ srow ∈ o.suppressions, srow.apiKeyId = msg.apiKeyId ∧
          srow.email = lowerString msg.toAddress ∧ srow.reason = .hard_bounce) ∧
        o.deliveries = triggerWebhookEvent webhooks msg.apiKeyId msg.id "message.bounced" now
          { bounceType := some "hard", bounceCode := e.responseCode,
            bounceMessage := some e.message } ∧
        (∀ dd ∈ o.deliveries, dd.event = "message.bounced" ∧
          dd.payload.extras.bounceType = some "hard" ∧
          dd.payload.extras.bounceCode = e.responseCode ∧
          dd.payload.extras.bounceMessage = some e.message)) ∧
      (isHardBounce e = false →
        o.msgUpdate.status = .failed ∧ o.suppressions = supp ∧
        o.deliveries = triggerWebhookEvent webhooks msg.apiKeyId msg.id "message.failed" now
          { failureReason := some e.message } ∧
        (∀ dd ∈ o.deliveries, dd.event = "message.failed")) := by
  intro maxRetries now sid supp webhooks msg e o h ho hnr
  subst ho
  have hb : (e.shouldRetry && !(decide (maxRetries ≤ msg.attempts + 1))) = false := by
    rcases Bool.eq_false_or_eq_true (e.shouldRetry && !(decide (maxRetries ≤ msg.attempts + 1)))
      with ht | hf
    · refine absurd ?_ hnr
      have := ht
      simp only [Bool.and_eq_true, Bool.not_eq_true', decide_eq_false_iff_not, Nat.not_le]
        at this
      exact this
    · exact hf
  have hfind : supp.find? (suppressionMatch msg.apiKeyId (lowerString msg.toAddress)) = none := by
    simpa [suppressionsFindByEmail] using h
  have hcreate : suppressionsCreate supp
      { apiKeyId := msg.apiKeyId, email := msg.toAddress, reason := .hard_bounce } sid =
      (supp ++ [suppressionNewRow
        { apiKeyId := msg.apiKeyId, email := msg.toAddress, reason := .hard_bounce } sid],
       suppressionNewRow
        { apiKeyId := msg.apiKeyId, email := msg.toAddress, reason := .hard_bounce } sid) := by
    simp [suppressionsCreate, hfind]
  refine ⟨?_, ?_, ?_⟩
  · cases hrc : e.responseCode with
    | none => simp [isHardBounce, hrc]
    | some c =>
      simp [isHardBounce, hrc, List.contains_iff_exists_mem_beq]
  · intro hhb
    refine ⟨?_, ?_, ?_, ?_, ?_, ?_⟩
    · simp [processMessage, h, hb, hhb]
    · simp [processMessage, h, hb, hhb]
    · simp [processMessage, h, hb, hhb, hcreate]
    · refine ⟨suppressionNewRow
        { apiKeyId := msg.apiKeyId, email := msg.toAddress, reason := .hard_bounce } sid,
        ?_, ?_, ?_, ?_⟩
      · simp [processMessage, h, hb, hhb, hcreate]
      · simp [suppressionNewRow]
      · simp [suppressionNewRow]
      · simp [suppressionNewRow]
    · simp [processMessage, h, hb, hhb]
    · intro dd hdd
      have hdd2 : dd ∈ triggerWebhookEvent webhooks msg.apiKeyId msg.id "message.bounced" now
          { bounceType := some "hard", bounceCode := e.responseCode,
            bounceMessage := some e.message } := by
        have heq : (processMessage maxRetries now sid supp webhooks msg
            (SendOutcome.failure e)).deliveries =
            triggerWebhookEvent webhooks msg.apiKeyId msg.id "message.bounced" now
              { bounceType := some "hard", bounceCode := e.responseCode,
                bounceMessage := some e.message } := by
          simp [processMessage, h, hb, hhb]
        rwa [heq] at hdd
      rcases List.mem_map.mp hdd2 with ⟨w, _, hw⟩
      rw [← hw]
      exact ⟨rfl, rfl, rfl, rfl⟩
  · intro hhb
    refine ⟨?_, ?_, ?_, ?_⟩
    · simp [processMessage, h, hb, hhb]
    · simp [processMessage, h, hb, hhb]
    · simp [processMessage, h, hb, hhb]
    · intro dd hdd
      have heq : (processMessage maxRetries now sid supp webhooks msg
          (SendOutcome.failure e)).deliveries =
          triggerWebhookEvent webhooks msg.apiKeyId msg.id "message.failed" now
            { failureReason := some e.message } := by
        simp [processMessage, h, hb, hhb]
      rw [heq] at hdd
      rcases List.mem_map.mp hdd with ⟨w, _, hw⟩
      rw [← hw]

/-- A classified permanent 550 failure (a hard bounce). -/
def smtpErr550 : SmtpErr :=
  { message := "550 mailbox unavailable", type := .permanent, responseCode := some 550,
    code := none }

/-- Witness for C4: a 550 permanent failure of msgEx under max_retries = 3. -/
theorem C4_witness :
    (isHardBounce smtpErr550 = true ↔
      smtpErr550.type = .permanent ∧
        ∃ c, smtpErr550.responseCode = some c ∧ c ∈ HARD_BOUNCE_CODES) ∧
    (isHardBounce smtpErr550 = true →
      (processMessage 3 50 99 [] [whEx] msgEx
          (SendOutcome.failure smtpErr550)).msgUpdate.status = .failed ∧
      (processMessage 3 50 99 [] [whEx] msgEx
          (SendOutcome.failure smtpErr550)).msgUpdate.failedAt = some 50 ∧
      (processMessage 3 50 99 [] [whEx] msgEx (SendOutcome.failure smtpErr550)).suppressions =
        [] ++ [suppressionNewRow
          { apiKeyId := msgEx.apiKeyId, email := msgEx.toAddress, reason := .hard_bounce } 99] ∧
      (∃ srow ∈ (processMessage 3 50 99 [] [whEx] msgEx
          (SendOutcome.failure smtpErr550)).suppressions,
        srow.apiKeyId = msgEx.apiKeyId ∧ srow.email = lowerString msgEx.toAddress ∧
        srow.reason = .hard_bounce) ∧
      (processMessage 3 50 99 [] [whEx] msgEx (SendOutcome.failure smtpErr550)).deliveries =
        triggerWebhookEvent [whEx] msgEx.apiKeyId msgEx.id "message.bounced" 50
          { bounceType := some "hard", bounceCode := smtpErr550.responseCode,
            bounceMessage := some smtpErr550.message } ∧
      (∀ dd ∈ (processMessage 3 50 99 [] [whEx] msgEx
          (SendOutcome.failure smtpErr550)).deliveries,
        dd.event = "message.bounced" ∧
        dd.payload.extras.bounceType = some "hard" ∧
        dd.payload.extras.bounceCode = smtpErr550.responseCode ∧
        dd.payload.extras.bounceMessage = some smtpErr550.message)) ∧
    (isHardBounce smtpErr550 = false →
      (processMessage 3 50 99 [] [whEx] msgEx
          (SendOutcome.failure smtpErr550)).msgUpdate.status = .failed ∧
      (processMessage 3 50 99 [] [whEx] msgEx (SendOutcome.failure smtpErr550)).suppressions =
        [] ∧
      (processMessage 3 50 99 [] [whEx] msgEx (SendOutcome.failure smtpErr550)).deliveries =
        triggerWebhookEvent [whEx] msgEx.apiKeyId msgEx.id "message.failed" 50
          { failureReason := some smtpErr550.message } ∧
      (∀ dd ∈ (processMessage 3 50 99 [] [whEx] msgEx
          (SendOutcome.failure smtpErr550)).deliveries, dd.event = "message.failed")) :=
  C4_hard_bounce_terminal 3 50 99 [] [whEx] msgEx smtpErr550 _ (by decide) rfl (by decide)

/-- C7: the SMTP error classifier maps network error codes to connection
(retryable); otherwise a present nonzero response code in the 4xx range —
including {450, 451, 452} — to temporary (retryable), one in the 5xx range to
permanent (not retryable), preserving the code in both cases; everything else
is unknown and not retryable.  Classification is a pure function, so
classifying the same error twice gives the same kind, responseCode and
shouldRetry. -/
theorem C7_classifier :
    ∀ (e : RawSendError),
      (e.code.any (fun c => CONNECTION_ERROR_CODES.contains c) = true →
        (classifySmtpError e).type = .connection ∧
        (classifySmtpError e).shouldRetry = true) ∧
      (e.code.any (fun c => CONNECTION_ERROR_CODES.contains c) = false →
        (∀ rc, e.responseCode = some rc →
          (400 ≤ rc ∧ rc < 500 →
            (classifySmtpError e).type = .temporary ∧
            (classifySmtpError e).shouldRetry = true ∧
            (classifySmtpError e).responseCode = some rc) ∧
          (500 ≤ rc ∧ rc < 600 →
            (classifySmtpError e).type = .permanent ∧
            (classifySmtpError e).shouldRetry = false ∧
            (classifySmtpError e).responseCode = some rc) ∧
          (¬(400 ≤ rc ∧ rc < 600) →
            (classifySmtpError e).type = .unknown ∧
            (classifySmtpError e).shouldRetry = false)) ∧
        (e.responseCode = none →
          (classifySmtpError e).type = .unknown ∧
          (classifySmtpError e).shouldRetry = false)) ∧
      classifySmtpError e = classifySmtpError e := by
  intro e
  refine ⟨?_, ?_, rfl⟩
  · intro hconn
    cases hcode : e.code with
    | none => rw [hcode] at hconn; simp at hconn
    | some c =>
      rw [hcode] at hconn
      have hc : c ∈ CONNECTION_ERROR_CODES := by simpa using hconn
      simp [classifySmtpError, hcode, hc, SmtpErr.shouldRetry]
  · intro hconn
    have harm : classifySmtpError e = classifyByResponseCode e.message e.responseCode := by
      unfold classifySmtpError
      rw [if_neg (by simpa using hconn)]
    refine ⟨?_, ?_⟩
    · intro rc hrc
      rw [harm, hrc]
      refine ⟨?_, ?_, ?_⟩
      · rintro ⟨h4, h5⟩
        have hz : rc ≠ 0 := by omega
        have hhard : rc ∉ HARD_BOUNCE_CODES := by
          simp [HARD_BOUNCE_CODES]
          omega
        have hn5 : ¬(500 ≤ rc ∧ rc < 600) := by omega
        have hy4 : 400 ≤ rc ∧ rc < 500 := ⟨h4, h5⟩
        by_cases hsoft : rc ∈ SOFT_BOUNCE_CODES
        · simp [classifyByResponseCode, hz, hhard, hsoft, SmtpErr.shouldRetry]
        · simp [classifyByResponseCode, hz, hhard, hsoft, hn5, hy4, SmtpErr.shouldRetry]
      · rintro ⟨h5, h6⟩
        have hz : rc ≠ 0 := by omega
        have hsoft : rc ∉ SOFT_BOUNCE_CODES := by
          simp [SOFT_BOUNCE_CODES]
          omega
        have hy5 : 500 ≤ rc ∧ rc < 600 := ⟨h5, h6⟩
        by_cases hhard : rc ∈ HARD_BOUNCE_CODES
        · simp [classifyByResponseCode, hz, hhard, SmtpErr.shouldRetry]
        · simp [classifyByResponseCode, hz, hhard, hsoft, hy5, SmtpErr.shouldRetry]
      · intro hout
        by_cases hz : rc = 0
        · subst hz
          simp [classifyByResponseCode, SmtpErr.shouldRetry]
        · have hhard : rc ∉ HARD_BOUNCE_CODES := by
            simp [HARD_BOUNCE_CODES]
            omega
          have hsoft : rc ∉ SOFT_BOUNCE_CODES := by
            simp [SOFT_BOUNCE_CODES]
            omega
          have hn5 : ¬(500 ≤ rc ∧ rc < 600) := by omega
          have hn4 : ¬(400 ≤ rc ∧ rc < 500) := by omega
          simp [classifyByResponseCode, hz, hhard, hsoft, hn5, hn4, SmtpErr.shouldRetry]
    · intro hnone
      rw [harm, hnone]
      simp [classifyByResponseCode, SmtpErr.shouldRetry]

/-- A raw nodemailer error carrying a connection-refused code. -/
def rawConnRefused : RawSendError :=
  { message := "refused", code := some "ECONNREFUSED", responseCode := none }

/-- Witness for C7: a connection-refused error classifies as a retryable
connection error. -/
theorem C7_witness :
    (classifySmtpError rawConnRefused).type = .connection ∧
    (classifySmtpError rawConnRefused).shouldRetry = true :=
  (C7_classifier rawConnRefused).1 (by decide)

/-- C9: when processMessage throws an unexpected exception, the catch branch
of processNext always writes the message back to queued with attempts
incremented by one, whatever the configuration and however many attempts have
already happened — so when attempts already reached max_retries the requeue
pushes the counter strictly past the bound that governs classified send
failures. -/
theorem C9_exception_requeue :
    ∀ (maxRetries : Nat) (msg : MessageRow) (errMessage : String),
      (processNextCatch msg errMessage).1.status = .queued ∧
      (processNextCatch msg errMessage).1.attempts = some (msg.attempts + 1) ∧
      (processNextCatch msg errMessage).1.failureReason =
        some ("Processing error: " ++ errMessage) ∧
      (processNextCatch msg errMessage).2.status = .queued ∧
      (processNextCatch msg errMessage).2.shouldRetry = some true ∧
      (maxRetries ≤ msg.attempts → maxRetries < msg.attempts + 1) := by
  intro maxRetries msg errMessage
  refine ⟨rfl, rfl, rfl, rfl, rfl, ?_⟩
  intro hle
  omega

/-- Witness for C9: a message whose attempts already equal max_retries = 3. -/
theorem C9_witness :
    (processNextCatch { msgEx with attempts := 3 } "boom").1.status = .queued ∧
    (processNextCatch { msgEx with attempts := 3 } "boom").1.attempts =
      some (({ msgEx with attempts := 3 } : MessageRow).attempts + 1) ∧
    (processNextCatch { msgEx with attempts := 3 } "boom").1.failureReason =
      some ("Processing error: " ++ "boom") ∧
    (processNextCatch { msgEx with attempts := 3 } "boom").2.status = .queued ∧
    (processNextCatch { msgEx with attempts := 3 } "boom").2.shouldRetry = some true ∧
    ((3 : Nat) ≤ ({ msgEx with attempts := 3 } : MessageRow).attempts →
      (3 : Nat) < ({ msgEx with attempts := 3 } : MessageRow).attempts + 1) :=
  C9_exception_requeue 3 { msgEx with attempts := 3 } "boom"

theorem C1_witness :
    (runFailingDispatch 5 [100, 200, 300, 400, 500, 600] wdEx).2 ≤ 3 ∧
    ((runFailingDispatch 5 [100, 200, 300, 400, 500, 600] wdEx).1.status =
        WebhookDeliveryStatus.failed →
      (runFailingDispatch 5 [100, 200, 300, 400, 500, 600] wdEx).2 = 3 ∧
      (runFailingDispatch 5 [100, 200, 300, 400, 500, 600] wdEx).1.attempts = 6) ∧
    ((runFailingDispatch 5 [100, 200, 300, 400, 500, 600] wdEx).1.status =
        WebhookDeliveryStatus.pending →
      (runFailingDispatch 5 [100, 200, 300, 400, 500, 600] wdEx).1.attempts =
        2 * (runFailingDispatch 5 [100, 200, 300, 400, 500, 600] wdEx).2) :=
  C1_webhook_retry_bound [100, 200, 300, 400, 500, 600] wdEx rfl rfl

theorem hexDigit_mem (n : Nat) : hexDigit n ∈ lowercaseHexDigits := by
  unfold hexDigit
  by_cases h : n < 16
  · interval_cases n <;> decide
  · rw [List.getD_eq_default]
    · decide
    · simpa [lowercaseHexDigits] using Nat.le_of_not_lt h

theorem hexOfBytes_chars (l : List Nat) :
    ∀ c ∈ (hexOfBytes l).data, c ∈ lowercaseHexDigits := by
  intro c hc
  simp only [hexOfBytes] at hc
  rcases List.mem_flatten.mp hc with ⟨sub, hsub, hcsub⟩
  rcases List.mem_map.mp hsub with ⟨b, _, hb⟩
  rw [← hb] at hcsub
  rcases List.mem_cons.mp hcsub with h1 | h2
  · rw [h1]; exact hexDigit_mem _
  · rcases List.mem_cons.mp h2 with h3 | h4
    · rw [h3]; exact hexDigit_mem _
    · simp at h4

/-- C8: on every webhook dispatch the X-OpenSend-Signature header is exactly
"v1=" followed by the hex HMAC-SHA256, keyed by the webhook secret, of the
string "{timestamp}.{payload}", where the timestamp is the millisecond epoch
string also sent as X-OpenSend-Timestamp and the payload is the serialized
JSON body that is POSTed; the hex digest uses only lowercase hex digits; and
signing is a pure function, so signing the same data twice yields the same
digest. -/
theorem C8_webhook_signature :
    ∀ (nowMs : Nat) (payload secret event : String),
      (generateWebhookHeaders nowMs payload secret event).lookup "X-OpenSend-Signature" =
        some ("v1=" ++
          hexOfBytes (hmacSha256 (strBytes secret)
            (strBytes (toString nowMs ++ "." ++ payload)))) ∧
      (generateWebhookHeaders nowMs payload secret event).lookup "X-OpenSend-Timestamp" =
        some (toString nowMs) ∧
      generateSignature (toString nowMs ++ "." ++ payload) secret =
        hexOfBytes (hmacSha256 (strBytes secret)
          (strBytes (toString nowMs ++ "." ++ payload))) ∧
      generateSignature (toString nowMs ++ "." ++ payload) secret =
        generateSignature (toString nowMs ++ "." ++ payload) secret ∧
      (∀ c ∈ (generateSignature (toString nowMs ++ "." ++ payload) secret).data,
        c ∈ lowercaseHexDigits) := by
  intro nowMs payload secret event
  refine ⟨?_, ?_, rfl, rfl, ?_⟩
  · rfl
  · rfl
  · exact hexOfBytes_chars _

/-- Witness for C8: concrete headers for a timestamp, payload, secret and
event. -/
theorem C8_witness :
    (generateWebhookHeaders 1700000000000 "p" "sek" "message.sent").lookup
        "X-OpenSend-Signature" =
      some ("v1=" ++ hexOfBytes (hmacSha256 (strBytes "sek")
        (strBytes (toString (1700000000000 : Nat) ++ "." ++ "p")))) ∧
    (generateWebhookHeaders 1700000000000 "p" "sek" "message.sent").lookup
        "X-OpenSend-Timestamp" =
      some (toString (1700000000000 : Nat)) :=
  ⟨(C8_webhook_signature 1700000000000 "p" "sek" "message.sent").1,
   (C8_webhook_signature 1700000000000 "p" "sek" "message.sent").2.1⟩

end OpenSend
